import Mathlib

/-!
Verification development for the Memoirs conversational-memory worker
(Cloudflare Worker, `src/worker.js`, plus the earlier worker revision kept
in the repository as `src/unnamed/part_002`).

The JavaScript string operations used by the worker are embedded first
(`jsTrim`, `jsIncludes`, `jsSplitWs`, ...), then the response pipeline
(`enhanceAIResponse`, the model chain of `handleChat`, the contextual
fallback block) and the biography assembly
(`generateComprehensiveAnalysis` and its extractors).

Conventions of the embedding:
  - JavaScript strings are Lean `String`s; `String.length` counts
    characters (all strings considered here are in the basic plane, where
    this agrees with UTF-16 code-unit counts).
  - `s.toLowerCase()` is `String.toLower` (ASCII case mapping; the Urdu
    code points involved have no case).
  - ISO timestamps are carried as epoch milliseconds (`Nat`); the only
    observations the analyzed code makes of a timestamp are ordering,
    `getFullYear` and `toLocaleDateString`, embedded below.
  - `fetch` results are an explicit parameter: a function from model name
    to `Option String` giving the extracted raw text of a successful call
    (`none` covers transport errors, 503 warm-up replies and unusable
    response shapes).
-/

/-- JavaScript `s.toLowerCase()` (ASCII case mapping; the Urdu code
points of the repository have no case). -/
def jsToLower (s : String) : String :=
  ⟨s.data.map Char.toLower⟩

/-- JavaScript `Array.prototype.join(sep)`. -/
def jsJoin (sep : String) : List String → String
  | [] => ""
  | [x] => x
  | x :: xs => x ++ sep ++ jsJoin sep xs

/-- Whitespace test used by JavaScript `trim` and `\s` (restricted to the
whitespace characters that actually occur in the repository data). -/
def jsWs (c : Char) : Bool := c.isWhitespace

/-- Drop the trailing run of characters satisfying `p`. -/
def rdrop (p : Char → Bool) (l : List Char) : List Char :=
  (l.reverse.dropWhile p).reverse

/-- JavaScript `String.prototype.trim()`: strip leading and trailing
whitespace. -/
def jsTrim (s : String) : String :=
  ⟨rdrop jsWs (s.data.dropWhile jsWs)⟩

/-- Occurrence of `p` as a contiguous sublist of `s` (JavaScript
`String.prototype.includes` on the underlying characters). -/
def charsInfix (p : List Char) : List Char → Bool
  | [] => p.isEmpty
  | c :: rest => p.isPrefixOf (c :: rest) || charsInfix p rest

/-- JavaScript `s.includes(pat)`. -/
def jsIncludes (s pat : String) : Bool :=
  charsInfix pat.data s.data

/-- JavaScript `s.split(/\s+/)`: split on maximal whitespace runs; a
leading (resp. trailing) run contributes a leading (resp. trailing)
empty element, exactly as in JavaScript. Defined with a fuel argument
(the string length) to keep the recursion structural. -/
def jsSplitWsAux : Nat → List Char → List (List Char)
  | 0, s => [s.takeWhile (fun c => !jsWs c)]
  | fuel + 1, s =>
    let tok := s.takeWhile (fun c => !jsWs c)
    let rest := s.drop tok.length
    match rest with
    | [] => [tok]
    | _ :: _ => tok :: jsSplitWsAux fuel (rest.dropWhile jsWs)

/-- JavaScript `s.split(/\s+/)` as a list of strings. -/
def jsSplitWs (s : String) : List String :=
  (jsSplitWsAux s.data.length s.data).map (fun l => ⟨l⟩)

/-- JavaScript `s.substring(a, b)` (for `a ≤ b`). -/
def jsSubstring (s : String) (a b : Nat) : String :=
  ⟨(s.data.drop a).take (b - a)⟩

/-- `s.replace(/^[:\-]\s*/, "")`: drop one leading colon or dash together
with the whitespace following it (worker.js line 685). -/
def stripLeadArtifact (s : String) : String :=
  match s.data with
  | c :: rest => if c = ':' ∨ c = '-' then ⟨rest.dropWhile jsWs⟩ else s
  | [] => s

/-- Whether the string begins with one of the punctuation artifacts the
Enhancer strips (a colon or a dash). -/
def headIsArtifact (s : String) : Bool :=
  match s.data with
  | c :: _ => c == ':' || c == '-'
  | [] => false

/-- `s.replace(/\s+$/, "")`: drop trailing whitespace (worker.js line 686). -/
def stripTrailWs (s : String) : String :=
  ⟨rdrop jsWs s.data⟩

/-- Strip leading and trailing runs of quote characters — double quote,
single quote, backtick — as the global replace at worker.js line 417 does. -/
def stripQuoteRuns (s : String) : String :=
  let q : Char → Bool := fun c => c = '"' ∨ c = '\x27' ∨ c = '\x60'
  ⟨rdrop q (s.data.dropWhile q)⟩

/-- Test for `/[a-zA-Z؀-ۿ]/` (worker.js line 422): the string
contains a Latin letter or an Arabic-script character. -/
def hasScriptChar (s : String) : Bool :=
  s.data.any (fun c =>
    (('a' ≤ c ∧ c ≤ 'z') ∨ ('A' ≤ c ∧ c ≤ 'Z') ∨
      (0x600 ≤ c.val ∧ c.val ≤ 0x6FF) : Bool))

/-- Number of `/\s+/`-separated tokens of a string (used for the
single-word test of `enhanceAIResponse`). -/
def tokenCount (s : String) : Nat := (jsSplitWs s).length

/-- One history entry of the chat request payload
(`conversationHistory` items `{user, ai}`). -/
structure HistoryEntry where
  user : String
  ai : String
deriving Repr, DecidableEq

/-- `enhanceAIResponse` of the current worker (worker.js lines 664-690).
Returns `none` where the JavaScript returns `null`. The `userMessage`,
`language` and `history` parameters are kept for signature fidelity;
the current revision does not read them. -/
def enhanceAIResponse (rawResponse userMessage language : String)
    (history : List HistoryEntry) : Option String :=
  if (jsTrim rawResponse).length < 3 then none
  else
    let response := jsTrim rawResponse
    if tokenCount response = 1 ∧ response.length < 5 then none
    else
      let lowerResponse := jsToLower response
      if (jsIncludes lowerResponse "tell me more" ∨
          jsIncludes lowerResponse "tell me about") ∧ response.length < 40 then none
      else
        some (stripTrailWs (stripLeadArtifact response))

/-- `language === "ur-PK" ? u : e` — the language dispatch used by every
leaf of the contextual fallback block (worker.js lines 509-561). -/
def pick (language u e : String) : String :=
  if language = "ur-PK" then u else e

/-- JavaScript `\w` (no `u` flag): ASCII letters, digits, underscore. -/
def jsWordChar (c : Char) : Bool := c.isAlphanum || c = '_'

/-- Attempt of one regex alternative at the start of `s`: the alternative
must match case-insensitively, followed by `\s+` and a captured `\w+`
word, which is returned in its original case. -/
def tryNameAlt (alt s : List Char) : Option (List Char) :=
  if (alt.map Char.toLower).isPrefixOf (s.map Char.toLower) then
    let after := s.drop alt.length
    let ws := after.takeWhile jsWs
    let word := (after.drop ws.length).takeWhile jsWordChar
    if 0 < ws.length ∧ 0 < word.length then some word else none
  else none

/-- Leftmost match of `/(?:alt1|alt2|...)\s+(\w+)/i`: alternatives are
tried in order at each position, positions left to right. -/
def scanNameAux (alts : List (List Char)) : List Char → Option (List Char)
  | [] => none
  | c :: rest =>
    match alts.findSome? (fun alt => tryNameAlt alt (c :: rest)) with
    | some w => some w
    | none => scanNameAux alts rest

/-- Captured name of the `my name is X` patterns, if any. -/
def scanNameCapture (alts : List String) (s : String) : Option String :=
  (scanNameAux (alts.map String.data) s.data).map (fun l => ⟨l⟩)

/-- Alternatives of the name regex of the current worker
(worker.js line 518): `/(?:my name is|i\x27m|i am|میرا نام)\s+(\w+)/i`. -/
def workerNameAlts : List String := ["my name is", "i\x27m", "i am", "میرا نام"]

/-- The deterministic contextual fallback block of `handleChat`
(worker.js lines 502-561): reached when every model attempt failed or was
rejected; always assigns a reply from fixed templates. -/
def contextualFallback (message language : String)
    (history : List HistoryEntry) : String :=
  let lowerMessage := jsToLower message
  if jsIncludes lowerMessage "hear" ∨ jsIncludes lowerMessage "there" ∨
      jsIncludes lowerMessage "can you" then
    pick language "جی ہاں، میں آپ کو سن رہا ہوں! آپ کیا کہنا چاہتے ہیں؟"
      "Yes, I can hear you! What would you like to tell me?"
  else if jsIncludes lowerMessage "hello" ∨ jsIncludes lowerMessage "hi" ∨
      jsIncludes lowerMessage "hey" then
    pick language "ہیلو! آپ سے مل کر خوشی ہوئی۔ آپ مجھے اپنے بارے میں کچھ بتائیں۔"
      "Hello! Nice to meet you. Tell me about yourself."
  else if jsIncludes lowerMessage "name" then
    match scanNameCapture workerNameAlts message with
    | some n =>
      pick language ("آپ سے مل کر بہت خوشی ہوئی، " ++ n ++ "! آپ کہاں رہتے ہیں؟")
        ("Nice to meet you, " ++ n ++ "! Where are you from?")
    | none =>
      pick language "آپ سے مل کر خوشی ہوئی! آپ کا نام کیا ہے؟"
        "Nice to meet you! What\x27s your name?"
  else
    let lastTopic := match history.getLast? with
      | some h => jsToLower h.user
      | none => ""
    if jsIncludes lastTopic "childhood" ∨ jsIncludes lastTopic "grew up" then
      pick language "آپ کے بچپن کے بارے میں مزید بتائیں؟"
        "Tell me more about your childhood?"
    else if jsIncludes lastTopic "family" ∨ jsIncludes lastTopic "parent" then
      pick language "آپ کے خاندان کے بارے میں مزید بتائیں؟"
        "Tell me more about your family?"
    else if jsIncludes lastTopic "work" ∨ jsIncludes lastTopic "job" then
      pick language "آپ کے کام کے بارے میں مزید بتائیں؟"
        "Tell me more about your work?"
    else if jsIncludes message "?" then
      pick language "یہ اچھا سوال ہے! آپ اس کے بارے میں کیا سوچتے ہیں؟"
        "That\x27s a good question! What do you think about that?"
    else if (jsSplitWs (jsToLower message)).length < 5 then
      pick language "وہ کیسا تھا؟" "What was that like?"
    else
      pick language "یہ بہت دلچسپ ہے! پھر کیا ہوا؟"
        "That\x27s interesting! What happened next?"

/-- The fixed model priority list of `handleChat` (worker.js lines 324-329). -/
def modelOptions : List String :=
  ["microsoft/DialoGPT-medium", "microsoft/DialoGPT-large",
   "facebook/blenderbot-400M-distill", "gpt2"]

/-- One iteration body of the model loop (worker.js lines 361-434): given
the extracted text of a successful call (or `none` for a failed one),
trim, strip quote artifacts, require length over 3 with a script
character, then pass through the Enhancer; the result is accepted when
it is a non-empty string. -/
def attemptModel (raw : Option String) (message language : String)
    (history : List HistoryEntry) : Option String :=
  match raw with
  | none => none
  | some r0 =>
    let r1 := jsTrim (stripQuoteRuns (jsTrim r0))
    if r1 ≠ "" ∧ 3 < r1.length ∧ hasScriptChar r1 then
      match enhanceAIResponse r1 message language history with
      | some e => if e = "" then none else some e
      | none => none
    else none

/-- The sequential `for (const modelName of modelOptions)` loop of
`handleChat`: returns the first accepted reply (stopping the chain) and
the list of models attempted, in order. -/
def tryLoop (sources : String → Option String) (message language : String)
    (history : List HistoryEntry) : List String → Option String × List String
  | [] => (none, [])
  | m :: rest =>
    match attemptModel (sources m) message language history with
    | some e => (some e, [m])
    | none =>
      let r := tryLoop sources message language history rest
      (r.1, m :: r.2)

/-- `genText.split("AI:").pop() || genText` (worker.js line 488). -/
def afterAIMarker (s : String) : String :=
  match (s.splitOn "AI:").getLast? with
  | some l => if l = "" then s else l
  | none => s

/-- `aiPart.split("\n")[0]` (worker.js line 489). -/
def firstLine (s : String) : String := (s.splitOn "\n").headD s

/-- The second-stage gpt2 text-generation fallback of `handleChat`
(worker.js lines 455-499): attempted when the loop produced no usable
reply; on success the cleaned text is passed to the Enhancer (whose
`null` overwrites the accumulator), otherwise the previous accumulator
value is kept. -/
def gpt2Retry (raw : Option String) (message language : String)
    (history : List HistoryEntry) (prev : Option String) : Option String :=
  match raw with
  | none => prev
  | some genText =>
    let cleaned := jsTrim (firstLine (afterAIMarker genText))
    if cleaned ≠ "" ∧ 5 < cleaned.length then
      enhanceAIResponse cleaned message language history
    else prev

/-- `!aiResponse || aiResponse.trim().length < 3` — the guard used before
both the gpt2 retry (line 455) and the contextual fallback (line 502). -/
def needsFallback : Option String → Bool
  | none => true
  | some r => (jsTrim r).length < 3

/-- The generation phase of `handleChat`: the model loop followed, when
no usable reply was produced, by the gpt2 retry. Returns the reply
accumulator and the full list of external attempts in order. -/
def runChat (sources : String → Option String) (message language : String)
    (history : List HistoryEntry) : Option String × List String :=
  let l := tryLoop sources message language history modelOptions
  if needsFallback l.1 then
    (gpt2Retry (sources "gpt2") message language history l.1, l.2 ++ ["gpt2"])
  else l

/-- The reply finally returned by `handleChat`: the generation phase
result, or the deterministic contextual fallback when it is missing or
shorter than 3 characters after trimming. -/
def chatReply (sources : String → Option String) (message language : String)
    (history : List HistoryEntry) : String :=
  match (runChat sources message language history).1 with
  | some r =>
    if (jsTrim r).length < 3 then contextualFallback message language history
    else r
  | none => contextualFallback message language history

/-- `sessionId || \`session_${Date.now()}\`` (worker.js line 566),
with the clock passed explicitly. -/
def sessionOf (sessionId : Option String) (now : Nat) : String :=
  match sessionId with
  | some s => if s = "" then "session_" ++ toString now else s
  | none => "session_" ++ toString now

/-- Person-id normalization of the chat write path (worker.js line 601):
`(personId && personId !== "default" && personId.trim() !== "") ?
personId : "default"`. -/
def chatFinalPersonId : Option String → String
  | none => "default"
  | some s => if s ≠ "" ∧ s ≠ "default" ∧ jsTrim s ≠ "" then s else "default"

/-- Person-id normalization of the save (note) write path
(worker.js line 179): `body.personId || "default"`. -/
def savePersonId : Option String → String
  | none => "default"
  | some s => if s = "" then "default" else s

/-- A persisted conversation turn (row of the `conversations` table). -/
structure Turn where
  sessionId : String
  userMessage : String
  aiResponse : String
  language : String
  timestamp : Nat
  context : List HistoryEntry
  personId : String
deriving Repr, DecidableEq

/-- The caller-visible outcome of a chat request. -/
structure ChatHttp where
  success : Bool
  reply : String
  sessionId : String
deriving Repr, DecidableEq

/-- The tail of `handleChat` (worker.js lines 564-650): build the turn,
attempt the database insert inside try/catch — a failure is logged and
otherwise ignored — and return the success response with the computed
reply and resolved session id. The second component records the turn the
store accepted, if any. -/
def handleChatModel (sources : String → Option String)
    (message language : String) (sessionId : Option String)
    (history : List HistoryEntry) (personId : Option String) (now : Nat)
    (insert : Turn → Except String Unit) : ChatHttp × Option Turn :=
  let reply := chatReply sources message language history
  let session := sessionOf sessionId now
  let turn : Turn :=
    ⟨session, message, reply, language, now, history, chatFinalPersonId personId⟩
  match insert turn with
  | .ok _ => (⟨true, reply, session⟩, some turn)
  | .error _ => (⟨true, reply, session⟩, none)

/-- JavaScript `history.slice(-n)`. -/
def jsSliceLast (n : Nat) (l : List HistoryEntry) : List HistoryEntry :=
  l.drop (l.length - n)

/-- `history.slice(-3).map(h => h.user.toLowerCase()).join(" ")` — the
recent-topics window of the older revision
(src/unnamed/part_002 line 599). -/
def rev2RecentTopics (history : List HistoryEntry) : String :=
  jsJoin " " ((jsSliceLast 3 history).map (fun h => jsToLower h.user))

/-- Alternatives of the English name regex of the older revision
(src/unnamed/part_002 line 627): `/(?:my name is|i\x27m|i am)\s+(\w+)/i`. -/
def rev2NameAltsEn : List String := ["my name is", "i\x27m", "i am"]

/-- Alternatives of the Urdu-path name regex of the older revision
(src/unnamed/part_002 line 604). -/
def rev2NameAltsUr : List String :=
  ["میرا نام", "میں ہوں", "my name is", "i am", "i\x27m"]

/-- The generic follow-up pool of the older revision
(src/unnamed/part_002 lines 656-662). -/
def naturalFollowUps : List String :=
  ["That\x27s really interesting! Tell me more about that.",
   "I\x27d love to hear more! What happened next?",
   "That sounds amazing! Can you share more details?",
   "Wow, that\x27s fascinating! How did that make you feel?",
   "That\x27s wonderful! What else can you tell me about that?"]

/-- `msg.includes("my name is") || msg.includes("i\x27m") || msg.includes("i am")`
(src/unnamed/part_002 line 626). -/
def rev2NameCondEn (msg : String) : Bool :=
  jsIncludes msg "my name is" || jsIncludes msg "i\x27m" || jsIncludes msg "i am"

/-- The English name-branch reply of the older revision
(src/unnamed/part_002 lines 627-629). -/
def rev2NameReplyEn (msg : String) : String :=
  match scanNameCapture rev2NameAltsEn msg with
  | some n => "Nice to meet you, " ++ n ++ "! Tell me about yourself - where are you from?"
  | none => "Nice to meet you! Tell me about yourself."

/-- `generateContextualQuestion` of the older worker revision
(src/unnamed/part_002 lines 597-665). The `Math.random()` pool pick is
given by the injected index `rand` (reduced modulo the pool size, as
`Math.floor(Math.random() * pool.length)` always is). -/
def generateContextualQuestion (message language : String)
    (history : List HistoryEntry) (rand : Nat) : String :=
  let msg := jsToLower message
  let recentTopics := rev2RecentTopics history
  if language = "ur-PK" then
    if jsIncludes msg "میرا نام" || jsIncludes msg "میں ہوں" ||
        jsIncludes msg "my name is" || jsIncludes msg "i am" ||
        jsIncludes msg "i\x27m" then
      match scanNameCapture rev2NameAltsUr msg with
      | some n =>
        "آپ سے مل کر بہت خوشی ہوئی، " ++ n ++
          "! آپ مجھے اپنے بارے میں کچھ بتائیں - آپ کہاں رہتے ہیں؟"
      | none => "آپ سے مل کر خوشی ہوئی! آپ مجھے اپنے بارے میں کچھ بتائیں۔"
    else if jsIncludes msg "بچپن" || jsIncludes msg "بچپن میں" ||
        jsIncludes recentTopics "بچپن" then "وہ کیا تھا؟ مجھے مزید بتائیں!"
    else if jsIncludes msg "خاندان" || jsIncludes msg "والدین" ||
        jsIncludes recentTopics "خاندان" then
      "آپ کے خاندان کے بارے میں مزید بتائیں! آپ کے والدین کیا کرتے تھے؟"
    else if jsIncludes msg "شادی" || jsIncludes msg "بیوی" ||
        jsIncludes msg "شوہر" then "وہ کیسا تھا؟ آپ اپنے ساتھی سے کیسے ملے؟"
    else if jsIncludes msg "کام" || jsIncludes msg "ملازمت" ||
        jsIncludes recentTopics "کام" then "وہ کیسا تھا؟ آپ کو کیا پسند تھا؟"
    else if jsIncludes msg "سفر" || jsIncludes msg "سفری" ||
        jsIncludes recentTopics "سفر" then "وہاں کیا ہوا؟ مجھے مزید بتائیں!"
    else "وہ کیسا تھا؟ مجھے مزید بتائیں!"
  else
    if rev2NameCondEn msg then rev2NameReplyEn msg
    else if jsIncludes msg "hello" || jsIncludes msg "hi" || jsIncludes msg "hey" then
      "Hi there! I\x27m really excited to talk with you! What\x27s your name?"
    else if jsIncludes msg "childhood" || jsIncludes msg "grew up" ||
        jsIncludes recentTopics "childhood" then
      "That sounds wonderful! What was your childhood like? What are some of your favorite memories from that time?"
    else if jsIncludes msg "family" || jsIncludes msg "parents" ||
        jsIncludes msg "siblings" || jsIncludes recentTopics "family" then
      "I\x27d love to hear more about your family! What were your parents like? Did you have siblings?"
    else if jsIncludes msg "married" || jsIncludes msg "spouse" ||
        jsIncludes msg "husband" || jsIncludes msg "wife" then
      "That\x27s beautiful! How did you two meet? What was your wedding like?"
    else if jsIncludes msg "work" || jsIncludes msg "job" ||
        jsIncludes msg "career" || jsIncludes recentTopics "work" then
      "That\x27s interesting! What did you do for work? What did you enjoy most about it?"
    else if jsIncludes msg "travel" || jsIncludes msg "visited" ||
        jsIncludes msg "went to" || jsIncludes recentTopics "travel" then
      "Oh, I love hearing about travels! Where did you go? What was your favorite place?"
    else if jsIncludes msg "school" || jsIncludes msg "education" ||
        jsIncludes msg "learned" || jsIncludes recentTopics "school" then
      "Tell me about your school days! What was your favorite subject? Who was your favorite teacher?"
    else if jsIncludes msg "friend" || jsIncludes msg "friendship" ||
        jsIncludes recentTopics "friend" then
      "Friends are so important! What made them special? How did you meet?"
    else naturalFollowUps.getD (rand % naturalFollowUps.length) ""

/-- The fixed topic vocabulary of the fallback synthesizer, in its
priority order. -/
inductive Topic
  | childhood | family | marriage | work | travel | education | friendship
deriving Repr, DecidableEq

/-- Priority order of the topic chain (name/greeting detection is handled
separately, before any topic). -/
def topicPriority : List Topic :=
  [.childhood, .family, .marriage, .work, .travel, .education, .friendship]

/-- Keyword set each topic is matched against on the current message
(the substrings tested by src/unnamed/part_002 lines 634-654). -/
def topicMsgKeywords : Topic → List String
  | .childhood => ["childhood", "grew up"]
  | .family => ["family", "parents", "siblings"]
  | .marriage => ["married", "spouse", "husband", "wife"]
  | .work => ["work", "job", "career"]
  | .travel => ["travel", "visited", "went to"]
  | .education => ["school", "education", "learned"]
  | .friendship => ["friend", "friendship"]

/-- The single keyword each topic is matched against on the recent-history
window — `none` for marriage, which the code only tests on the message. -/
def topicHistKeyword : Topic → Option String
  | .childhood => some "childhood"
  | .family => some "family"
  | .marriage => none
  | .work => some "work"
  | .travel => some "travel"
  | .education => some "school"
  | .friendship => some "friend"

/-- Canned English follow-up question of each topic
(src/unnamed/part_002 lines 634-654). -/
def topicQuestionEn : Topic → String
  | .childhood => "That sounds wonderful! What was your childhood like? What are some of your favorite memories from that time?"
  | .family => "I\x27d love to hear more about your family! What were your parents like? Did you have siblings?"
  | .marriage => "That\x27s beautiful! How did you two meet? What was your wedding like?"
  | .work => "That\x27s interesting! What did you do for work? What did you enjoy most about it?"
  | .travel => "Oh, I love hearing about travels! Where did you go? What was your favorite place?"
  | .education => "Tell me about your school days! What was your favorite subject? Who was your favorite teacher?"
  | .friendship => "Friends are so important! What made them special? How did you meet?"

/-- Modelled from the spec (sections 4.1 and 4.3): the claimed topic
detection — one identical keyword classifier applied to the lower-cased
message and to the recent-history window, a topic being tagged when any
of its keywords occurs in either text. -/
def specTopicTagged (msg recentTopics : String) (t : Topic) : Bool :=
  (topicMsgKeywords t).any (fun k => jsIncludes msg k) ||
    (topicMsgKeywords t).any (fun k => jsIncludes recentTopics k)

/-- Modelled from the spec: the union of topic tags of the message and the
recent-history window, in priority order. -/
def specTopicUnion (msg recentTopics : String) : List Topic :=
  topicPriority.filter (specTopicTagged msg recentTopics)

/-- Topic detection as the older revision actually performs it: full
keyword set against the message, only the primary keyword (and none for
marriage) against the recent-history window. -/
def topicCondAmended (msg recentTopics : String) (t : Topic) : Bool :=
  (topicMsgKeywords t).any (fun k => jsIncludes msg k) ||
    (match topicHistKeyword t with
     | some k => jsIncludes recentTopics k
     | none => false)

/-- The amended synthesizer contract for the English path: name detection
first, then greeting, then the first topic of the priority order matching
under `topicCondAmended`, else the generic pool entry selected by the
injected random index. -/
def amendedSynthEn (message : String) (history : List HistoryEntry)
    (rand : Nat) : String :=
  let msg := jsToLower message
  let recentTopics := rev2RecentTopics history
  if rev2NameCondEn msg then rev2NameReplyEn msg
  else if jsIncludes msg "hello" || jsIncludes msg "hi" || jsIncludes msg "hey" then
    "Hi there! I\x27m really excited to talk with you! What\x27s your name?"
  else
    match topicPriority.filter (topicCondAmended msg recentTopics) with
    | t :: _ => topicQuestionEn t
    | [] => naturalFollowUps.getD (rand % naturalFollowUps.length) ""


/-- A row of the `conversations` table as consumed by the analysis path
(fields the analysis code reads; timestamps as epoch milliseconds). -/
structure Conversation where
  user_message : String
  ai_response : String
  timestamp : Nat
deriving Repr, DecidableEq

/-- A row of the `grandma_memories` table (a standalone saved note). -/
structure Memory where
  text : String
  timestamp : Nat
deriving Repr, DecidableEq

/-- An element of the merged `allEntries` list of
`generateComprehensiveAnalysis` (worker.js lines 1228-1231). -/
structure BioEntry where
  kind : String
  text : String
  date : Nat
deriving Repr, DecidableEq

/-- Civil date (year, month, day) of a day count since 1970-01-01,
following the standard Gregorian era computation; embeds the calendar
arithmetic behind `Date.prototype.getFullYear` and
`Date.prototype.toLocaleDateString` for epoch-millisecond inputs. -/
def civilYMD (days : Nat) : Nat × Nat × Nat :=
  let z := days + 719468
  let era := z / 146097
  let doe := z % 146097
  let yoe := (doe - doe / 1460 + doe / 36524 - doe / 146096) / 365
  let y := yoe + era * 400
  let doy := doe - (365 * yoe + yoe / 4 - yoe / 100)
  let mp := (5 * doy + 2) / 153
  let d := doy - (153 * mp + 2) / 5 + 1
  let m := if mp < 10 then mp + 3 else mp - 9
  (if m ≤ 2 then y + 1 else y, m, d)

/-- `new Date(ms).getFullYear()`. -/
def jsGetFullYear (ms : Nat) : Nat := (civilYMD (ms / 86400000)).1

/-- `new Date(ms).toLocaleDateString()` in the en-US `M/D/YYYY` shape. -/
def jsLocaleDateString (ms : Nat) : String :=
  let c := civilYMD (ms / 86400000)
  toString c.2.1 ++ "/" ++ toString c.2.2 ++ "/" ++ toString c.1

/-- Stable insertion of an entry after all entries of earlier-or-equal
date (the placement `Array.prototype.sort` with comparator
`(a, b) => new Date(a.date) - new Date(b.date)` gives). -/
def insertByDate (e : BioEntry) : List BioEntry → List BioEntry
  | [] => [e]
  | x :: xs => if x.date ≤ e.date then x :: insertByDate e xs else e :: x :: xs

/-- Stable sort by date (`.sort((a, b) => new Date(a.date) - new Date(b.date))`,
worker.js line 1231). -/
def sortByDate (l : List BioEntry) : List BioEntry :=
  l.foldl (fun acc e => insertByDate e acc) []

/-- The merged, chronologically sorted entry list of
`generateComprehensiveAnalysis` (worker.js lines 1228-1231). -/
def mergedEntries (conversations : List Conversation)
    (memories : List Memory) : List BioEntry :=
  sortByDate
    (conversations.map (fun c =>
        ⟨"conversation", c.user_message ++ " " ++ c.ai_response, c.timestamp⟩) ++
      memories.map (fun m => ⟨"memory", m.text, m.timestamp⟩))

/-- `entry.text.split(/[.!?]/)` (worker.js line 1321). -/
def splitSentences (s : String) : List String :=
  s.split (fun c => c = '.' ∨ c = '!' ∨ c = '?')

/-- `extractTopics` (worker.js lines 1292-1311). -/
def extractTopics (text : String) : List String :=
  let topicKeywords : List (String × String) :=
    [("childhood", "Childhood & Early Years"), ("family", "Family"),
     ("work", "Work & Career"), ("school", "Education"),
     ("travel", "Travel & Adventures"), ("marriage", "Marriage & Relationships"),
     ("friends", "Friendships"), ("hobbies", "Hobbies & Interests"),
     ("health", "Health & Wellness"), ("religion", "Religion & Spirituality")]
  let found := topicKeywords.filterMap
    (fun p => if jsIncludes text p.1 then some p.2 else none)
  if found.length > 0 then found else ["Life Experiences", "Personal Stories"]

/-- `extractLifeEvents` (worker.js lines 1313-1328): for each entry and
each event keyword occurring in it, the first sentence containing the
keyword, capped at 20. The `text` parameter is kept for signature
fidelity (the source does not read it). -/
def extractLifeEvents (text : String) (entries : List BioEntry) : List String :=
  ((entries.map (fun entry =>
      let entryText := jsToLower entry.text
      (["born", "graduated", "married", "moved", "started", "retired",
        "traveled", "met"].filterMap (fun keyword =>
        if jsIncludes entryText keyword then
          match (splitSentences entry.text).find?
              (fun s => jsIncludes (jsToLower s) keyword) with
          | some sentence => some (jsTrim sentence)
          | none => none
        else none)))).flatten).take 20

/-- `keyword.charAt(0).toUpperCase() + keyword.slice(1)` (worker.js line 1336). -/
def capitalizeFirst (s : String) : String :=
  match s.data with
  | c :: rest => ⟨c.toUpper :: rest⟩
  | [] => s

/-- `extractRelationships` (worker.js lines 1330-1341). -/
def extractRelationships (text : String) : List String :=
  (["mother", "father", "wife", "husband", "son", "daughter", "brother",
    "sister", "friend", "grandmother", "grandfather"].filterMap
    (fun k => if jsIncludes text k then some (capitalizeFirst k) else none)).eraseDups

/-- `extractPersonality` (worker.js lines 1343-1363). -/
def extractPersonality (text : String) : List String :=
  let traitKeywords : List (String × String) :=
    [("kind", "Kind"), ("patient", "Patient"), ("curious", "Curious"),
     ("hardworking", "Hardworking"), ("loving", "Loving"), ("funny", "Humorous"),
     ("creative", "Creative"), ("brave", "Brave"), ("wise", "Wise"),
     ("generous", "Generous")]
  let traits := traitKeywords.filterMap
    (fun p => if jsIncludes text p.1 then some p.2 else none)
  if traits.length > 0 then traits else ["Thoughtful", "Reflective"]

/-- `extractValues` (worker.js lines 1365-1383). -/
def extractValues (text : String) : List String :=
  let valueKeywords : List (String × String) :=
    [("family", "Family"), ("honesty", "Honesty"), ("hard work", "Hard Work"),
     ("education", "Education"), ("faith", "Faith"), ("respect", "Respect"),
     ("love", "Love"), ("tradition", "Tradition")]
  let vals := valueKeywords.filterMap
    (fun p => if jsIncludes text p.1 then some p.2 else none)
  if vals.length > 0 then vals else ["Personal Growth", "Connection"]

/-- `extractStories` (worker.js lines 1385-1391): entries longer than 100
characters, truncated to 300, capped at 15. -/
def extractStories (entries : List BioEntry) : List String :=
  ((entries.filter (fun e => 100 < e.text.length)).map
    (fun e => jsSubstring e.text 0 300)).take 15

/-- `buildIntroduction` (worker.js lines 1393-1396). -/
def buildIntroduction (conversations : List Conversation)
    (memories : List Memory) (topics : List String) : String :=
  "This is a comprehensive biography compiled from " ++
    toString (conversations.length + memories.length) ++
    " conversations and " ++ toString memories.length ++
    " saved memories. The person shared stories about " ++
    jsJoin ", " (topics.take 3) ++
    " and many other aspects of their life. This book captures their essence, experiences, and the wisdom they\x27ve gathered over the years."

/-- `buildEarlyLifeSection` (worker.js lines 1398-1404). -/
def buildEarlyLifeSection (text : String) (events : List String) : String :=
  let earlyEvents := events.filter (fun e =>
    jsIncludes (jsToLower e) "child" || jsIncludes (jsToLower e) "grew up" ||
      jsIncludes (jsToLower e) "school")
  if earlyEvents.length > 0 then
    "Early life was marked by significant experiences: " ++
      jsJoin ". " (earlyEvents.take 3) ++ ". " ++
      (if jsIncludes text "childhood" then
        "Their childhood stories reveal a rich tapestry of memories and formative experiences."
      else "")
  else
    "Early life details were shared through conversations, revealing formative years and childhood experiences."

/-- `buildPersonalitySection` (worker.js lines 1406-1408). -/
def buildPersonalitySection (personality : List String) (text : String) : String :=
  "This person demonstrates " ++ jsJoin ", " (personality.take 5) ++
    ". Their personality shines through in how they tell stories, interact with others, and reflect on their experiences."

/-- `buildLifeJourneySection` (worker.js lines 1410-1413). -/
def buildLifeJourneySection (events : List String)
    (entries : List BioEntry) : String :=
  let chronological := jsJoin "\n\n" ((entries.take 20).map (fun e =>
    "[" ++ toString (jsGetFullYear e.date) ++ "] " ++ jsSubstring e.text 0 150))
  "Life\x27s journey unfolded through many chapters:\n\n" ++ chronological

/-- `buildRelationshipsSection` (worker.js lines 1415-1417). -/
def buildRelationshipsSection (relationships : List String)
    (text : String) : String :=
  "Important relationships included " ++ jsJoin ", " (relationships.take 5) ++
    ". These connections shaped their life and provided support, love, and companionship throughout the years."

/-- `buildValuesSection` (worker.js lines 1419-1421). -/
def buildValuesSection (values : List String) (text : String) : String :=
  "Core values that guided their life include " ++ jsJoin ", " (values.take 5) ++
    ". These principles influenced their decisions and how they lived."

/-- `buildStoriesSection` (worker.js lines 1423-1425): note that an empty
story list yields the empty string — there is no templated fallback here. -/
def buildStoriesSection (stories : List String) : String :=
  jsJoin "\n\n" (stories.enum.map (fun p =>
    "Story " ++ toString (p.1 + 1) ++ ": " ++ p.2 ++ "..."))

/-- `buildConclusion` (worker.js lines 1427-1429). -/
def buildConclusion (topics personality values : List String) : String :=
  "This biography captures the essence of a life well-lived, filled with " ++
    jsJoin " and " (topics.take 2) ++ ", characterized by " ++
    jsJoin " and " (personality.take 2) ++ ", and guided by values of " ++
    jsJoin " and " (values.take 2) ++
    ". Their stories and memories form a rich legacy."

/-- The narrative `book` object of the deterministic analysis. -/
structure AnalysisBook where
  title : String
  introduction : String
  earlyLife : String
  personality : String
  lifeJourney : String
  relationships : String
  values : String
  stories : String
  themes : String
  conclusion : String
deriving Repr, DecidableEq

/-- The full deterministic analysis result. -/
structure AnalysisDoc where
  book : AnalysisBook
  summary : String
  topics : List String
  personalityTraits : List String
  lifeEvents : List String
  relationshipsList : List String
  valuesList : List String
  storiesList : List String
deriving Repr, DecidableEq

/-- `generateComprehensiveAnalysis` (worker.js lines 1224-1264), the
deterministic assembly used when the external generator is unavailable. -/
def generateComprehensiveAnalysis (conversations : List Conversation)
    (memories : List Memory) (allText : String) : AnalysisDoc :=
  let text := jsToLower allText
  let allEntries := mergedEntries conversations memories
  let topics := extractTopics text
  let events := extractLifeEvents text allEntries
  let relationships := extractRelationships text
  let personality := extractPersonality text
  let values := extractValues text
  let stories := extractStories allEntries
  let book : AnalysisBook :=
    { title := "The Life Story",
      introduction := buildIntroduction conversations memories topics,
      earlyLife := buildEarlyLifeSection text events,
      personality := buildPersonalitySection personality text,
      lifeJourney := buildLifeJourneySection events allEntries,
      relationships := buildRelationshipsSection relationships text,
      values := buildValuesSection values text,
      stories := buildStoriesSection stories,
      themes := (let j := jsJoin ", " topics
                 if j = "" then "Life experiences" else j),
      conclusion := buildConclusion topics personality values }
  { book := book,
    summary := jsSubstring book.introduction 0 300,
    topics := topics.take 10,
    personalityTraits := personality.take 10,
    lifeEvents := events.take 15,
    relationshipsList := relationships.take 10,
    valuesList := values.take 8,
    storiesList := stories.take 10 }

/-- The `allText` corpus assembled by `handleAdminAnalyze`
(worker.js lines 1045-1057). -/
def buildAllText (conversations : List Conversation)
    (memories : List Memory) : String :=
  let conversationText := jsJoin "\n\n" (conversations.map (fun conv =>
    "[" ++ jsLocaleDateString conv.timestamp ++ "] User: " ++
      conv.user_message ++ "\nAI: " ++ conv.ai_response))
  let memoriesText := jsJoin "\n\n" (memories.map (fun mem =>
    "[" ++ jsLocaleDateString mem.timestamp ++ "] Memory: " ++ mem.text))
  jsJoin "\n\n"
    (((if memoriesText ≠ "" then "=== SAVED MEMORIES ===\n" ++ memoriesText
       else "") ::
      (if conversationText ≠ "" then "=== CONVERSATIONS ===\n" ++ conversationText
       else "") :: []).filter (fun s => s ≠ ""))

/-- Outcome of the external long-form generator call of
`generatePersonAnalysis`: `httpFail` covers non-ok statuses and thrown
errors, `text` a successful response with its extracted text. -/
inductive ExtGen
  | httpFail
  | text (s : String)
deriving Repr, DecidableEq

/-- `aiAnalysis.match(/\{[\s\S]*\}/)` (worker.js line 1168): the greedy
block from the first opening brace to the last closing brace, if any. -/
def extractJsonBlock (s : String) : Option String :=
  let l := s.data
  match l.findIdx? (fun c => c = '\x7b') with
  | some i =>
    match l.reverse.findIdx? (fun c => c = '\x7d') with
    | some j' =>
      let j := l.length - 1 - j'
      if i ≤ j then some ⟨(l.drop i).take (j - i + 1)⟩ else none
    | none => none
  | none => none

/-- Result of `generatePersonAnalysis`: either the external generator
response (used directly, with the brace block it may carry for JSON
parsing) or the deterministic assembly. -/
inductive AnalysisOutcome
  | external (raw : String) (jsonBlock : Option String)
  | assembled (doc : AnalysisDoc)
deriving Repr, DecidableEq

/-- `generatePersonAnalysis` (worker.js lines 1098-1218): on a successful
external call the response text is used (worker.js lines 1162-1180); on
failure or a thrown error the deterministic assembly is returned
(worker.js lines 1181-1194). -/
def generatePersonAnalysis (personId : String)
    (conversations : List Conversation) (memories : List Memory)
    (allText : String) (ext : ExtGen) : AnalysisOutcome :=
  match ext with
  | .text t => .external t (extractJsonBlock t)
  | .httpFail => .assembled (generateComprehensiveAnalysis conversations memories allText)

/-- Error kind surfaced by the analysis endpoint. -/
inductive AnalyzeError
  | notFound
deriving Repr, DecidableEq

/-- The decision core of `handleAdminAnalyze` (worker.js lines 1035-1060):
with the fetched conversations and memories of the person, return 404
(`notFound`) exactly when both are empty, otherwise run the analysis. -/
def handleAdminAnalyzeCore (personId : String)
    (conversations : List Conversation) (memories : List Memory)
    (ext : ExtGen) : Except AnalyzeError AnalysisOutcome :=
  if conversations.length = 0 ∧ memories.length = 0 then .error .notFound
  else .ok (generatePersonAnalysis personId conversations memories
    (buildAllText conversations memories) ext)

/-- The deterministic document `handleAdminAnalyze` produces when the
external generator fails. -/
def adminAssembledAnalysis (conversations : List Conversation)
    (memories : List Memory) : AnalysisDoc :=
  generateComprehensiveAnalysis conversations memories
    (buildAllText conversations memories)



/-- The amended sequencing contract of the model chain of `handleChat`:
the loop result is the first accepted source in priority order; the
attempt trace is a prefix of the priority list, possibly followed by one
extra `gpt2` attempt (the second-stage plain text-generation retry); no
model other than `gpt2` is attempted more than once, and `gpt2` at most
twice. -/
def SourceChainOk (sources : String → Option String)
    (message language : String) (history : List HistoryEntry)
    (m : String) : Prop :=
  (tryLoop sources message language history modelOptions).1 =
    modelOptions.findSome?
      (fun mo => attemptModel (sources mo) message language history) ∧
  (∃ k, (runChat sources message language history).2 = modelOptions.take k ∨
    (runChat sources message language history).2 =
      modelOptions.take k ++ ["gpt2"]) ∧
  (runChat sources message language history).2.count m ≤ 1 ∧
  (runChat sources message language history).2.count "gpt2" ≤ 2

/-! ### General helper lemmas -/

theorem string_data_append : ∀ (a b : String), (a ++ b).data = a.data ++ b.data
  | ⟨_⟩, ⟨_⟩ => rfl

theorem str_eq_empty_of_data (a : String) (h : a.data = []) : a = "" := by
  cases a
  cases h
  rfl

theorem str_append_ne_empty_left (a b : String) (h : a ≠ "") : a ++ b ≠ "" := by
  intro hab
  apply h
  have hd : (a ++ b).data = ("" : String).data := by rw [hab]
  rw [string_data_append] at hd
  exact str_eq_empty_of_data a (List.append_eq_nil.mp hd).1

theorem pick_of_ne (language u e : String) (h : language ≠ "ur-PK") :
    pick language u e = e := if_neg h

theorem pick_ne_empty (language u e : String) (hu : u ≠ "") (he : e ≠ "") :
    pick language u e ≠ "" := by
  unfold pick
  split <;> assumption

theorem dropWhile_head_not {α} (p : α → Bool) :
    ∀ (l : List α) (x : α) (xs : List α), l.dropWhile p = x :: xs → p x = false := by
  intro l
  induction l with
  | nil => intro x xs h; simp at h
  | cons a t ih =>
    intro x xs h
    rw [List.dropWhile_cons] at h
    by_cases hp : p a = true
    · rw [if_pos hp] at h; exact ih x xs h
    · rw [if_neg hp] at h
      cases h
      simpa using hp

theorem dropWhile_dropWhile {α} (p : α → Bool) (l : List α) :
    (l.dropWhile p).dropWhile p = l.dropWhile p := by
  cases hd : l.dropWhile p with
  | nil => rfl
  | cons x xs =>
    have hx := dropWhile_head_not p l x xs hd
    rw [List.dropWhile_cons, if_neg (by simp [hx])]

theorem rdrop_rdrop (p : Char → Bool) (l : List Char) :
    rdrop p (rdrop p l) = rdrop p l := by
  unfold rdrop
  rw [List.reverse_reverse, dropWhile_dropWhile]

/-! ### C9 — persistence failures do not fail the chat response -/

/-- C9: a failure of the turn-store append never fails the user-visible
chat response: whatever the insert callback returns, `handleChat` replies
with the already-computed reply and the resolved session id, as a
success result. -/
theorem respond_survives_persistence_failure (sources : String → Option String)
    (message language : String) (sessionId : Option String)
    (history : List HistoryEntry) (personId : Option String) (now : Nat)
    (insert : Turn → Except String Unit) :
    (handleChatModel sources message language sessionId history personId now
        insert).1 =
      { success := true,
        reply := chatReply sources message language history,
        sessionId := sessionOf sessionId now } := by
  unfold handleChatModel
  dsimp only
  split <;> rfl

/-! ### C8 — person-id normalization on the write paths -/

/-- C8 counterexample: the two write paths do not apply the same
normalization. A whitespace-only person id is blank, yet the save (note)
path stores it unchanged while the chat path collapses it to the
sentinel. -/
theorem personid_normalization_differs :
    savePersonId (some " ") = " " ∧ (" " : String) ≠ "default" ∧
      chatFinalPersonId (some " ") = "default" := by decide

/-- C8 amended: the chat path collapses an absent, empty, whitespace-only
or literal `default` person id to the sentinel and keeps any other id
unchanged; the save (note) path only replaces an absent or empty person
id, storing any other string — including whitespace-only ones —
unchanged. -/
theorem personid_normalization_rules (s : String) :
    chatFinalPersonId none = "default" ∧
    chatFinalPersonId (some s) =
      (if jsTrim s = "" ∨ s = "default" then "default" else s) ∧
    savePersonId none = "default" ∧
    savePersonId (some s) = (if s = "" then "default" else s) := by
  refine ⟨rfl, ?_, rfl, rfl⟩
  unfold chatFinalPersonId
  by_cases h1 : s = "default"
  · simp [h1]
  · by_cases h2 : jsTrim s = ""
    · simp [h1, h2]
    · have h0 : s ≠ "" := fun hs => h2 (by rw [hs]; rfl)
      simp [h0, h1, h2]

/-! ### C2 — biography synthesis signals NotFound exactly on empty input -/

/-- C2: the analysis endpoint signals `notFound` exactly when the person
has zero conversations and zero memories; on any non-empty input it
returns an analysis, and when the external generator fails the result is
the deterministic assembly. -/
theorem analyze_notfound_iff (personId : String)
    (conversations : List Conversation) (memories : List Memory)
    (ext : ExtGen) :
    (handleAdminAnalyzeCore personId conversations memories ext =
        .error .notFound ↔ conversations = [] ∧ memories = []) ∧
    handleAdminAnalyzeCore personId conversations memories .httpFail =
      (if conversations = [] ∧ memories = [] then .error .notFound
       else .ok (.assembled (adminAssembledAnalysis conversations memories))) := by
  constructor
  · constructor
    · intro h
      unfold handleAdminAnalyzeCore at h
      by_cases hc : conversations.length = 0 ∧ memories.length = 0
      · exact ⟨List.length_eq_zero.mp hc.1, List.length_eq_zero.mp hc.2⟩
      · rw [if_neg hc] at h
        cases h
    · rintro ⟨h1, h2⟩
      subst h1
      subst h2
      rfl
  · unfold handleAdminAnalyzeCore generatePersonAnalysis adminAssembledAnalysis
    by_cases hc : conversations = [] ∧ memories = []
    · rcases hc with ⟨h1, h2⟩
      subst h1
      subst h2
      simp
    · have hlen : ¬(conversations.length = 0 ∧ memories.length = 0) := by
        simpa [List.length_eq_zero] using hc
      simp [hc, hlen]

/-! ### C3 — the rejection rules of the Enhancer -/

/-- C3 counterexample: the current Enhancer applies neither the claimed
acknowledgment denylist nor an alphabetic-character test. `"i see"` (on
the claimed denylist, well under the short threshold) is accepted, and so
is the purely numeric `"123 456"`. -/
theorem enhancer_counterexample :
    enhanceAIResponse "i see" "" "" [] = some "i see" ∧
      enhanceAIResponse "123 456" "" "" [] = some "123 456" := by decide

/-- C3 amended: `enhanceAIResponse` rejects exactly the inputs whose trim
is shorter than 3 characters, or is a single token shorter than
5 characters, or contains `tell me more` / `tell me about` (lower-cased)
while shorter than 40 characters; every other input is accepted, cleaned.
The alphabetic/script-character test is performed by the caller before
the Enhancer is invoked, not by the Enhancer itself. -/
theorem enhancer_reject_characterization (rawResponse userMessage language : String)
    (history : List HistoryEntry) :
    enhanceAIResponse rawResponse userMessage language history = none ↔
      ((jsTrim rawResponse).length < 3 ∨
        (tokenCount (jsTrim rawResponse) = 1 ∧ (jsTrim rawResponse).length < 5) ∨
        ((jsIncludes (jsToLower (jsTrim rawResponse)) "tell me more" ∨
            jsIncludes (jsToLower (jsTrim rawResponse)) "tell me about") ∧
          (jsTrim rawResponse).length < 40)) := by
  unfold enhanceAIResponse
  by_cases h1 : (jsTrim rawResponse).length < 3
  · simp [h1]
  · by_cases h2 : tokenCount (jsTrim rawResponse) = 1 ∧ (jsTrim rawResponse).length < 5
    · simp only [if_neg h1, if_pos h2]
      simp [h1, h2]
    · by_cases h3 : (jsIncludes (jsToLower (jsTrim rawResponse)) "tell me more" = true ∨
          jsIncludes (jsToLower (jsTrim rawResponse)) "tell me about" = true) ∧
          (jsTrim rawResponse).length < 40
      · simp only [if_neg h1, if_neg h2, if_pos h3]
        simp [h1, h2, h3]
      · simp only [if_neg h1, if_neg h2, if_neg h3]
        simp [h1, h2, h3]

/-! ### C10 — language selection of the contextual fallback -/

/-- C10: every contextual-fallback reply selects its language by exact
string equality with `ur-PK`: any other language tag — bare `ur`
included — produces exactly the reply of the English (`en-US`) variant,
while the `ur-PK` branch of `pick` carries the Urdu template. -/
theorem fallback_language_dispatch (message language : String)
    (history : List HistoryEntry) (h : language ≠ "ur-PK") :
    contextualFallback message language history =
      contextualFallback message "en-US" history := by
  have he : ("en-US" : String) ≠ "ur-PK" := by decide
  unfold contextualFallback
  simp only [pick_of_ne _ _ _ h, pick_of_ne _ _ _ he]

/-- Witness for C10 at the concrete tag `ur`. -/
theorem fallback_language_dispatch_witness :
    (("ur" : String) ≠ "ur-PK") ∧
      contextualFallback "hello" "ur" [] = contextualFallback "hello" "en-US" [] :=
  ⟨by decide, fallback_language_dispatch "hello" "ur" [] (by decide)⟩

/-! ### C1 — the reply is never empty -/

set_option maxHeartbeats 1000000 in
theorem contextualFallback_ne_empty (message language : String)
    (history : List HistoryEntry) :
    contextualFallback message language history ≠ "" := by
  unfold contextualFallback
  dsimp only
  generalize scanNameCapture workerNameAlts message = nm
  generalize history.getLast? = hl
  cases nm <;> cases hl <;>
    split_ifs <;>
      (apply pick_ne_empty <;> (repeat apply str_append_ne_empty_left) <;> decide)

theorem chatReply_ne_empty (sources : String → Option String)
    (message language : String) (history : List HistoryEntry) :
    chatReply sources message language history ≠ "" := by
  unfold chatReply
  split
  case _ r =>
    split
    · exact contextualFallback_ne_empty _ _ _
    case _ hlen =>
      intro hr
      subst hr
      exact hlen (by decide)
  case _ => exact contextualFallback_ne_empty _ _ _

/-- C1: for every chat request, the reply returned by `handleChat` is a
non-empty string, whatever the external sources return — including when
every model call fails, is rejected by the Enhancer, or is unreachable:
the deterministic contextual fallback always produces a reply. -/
theorem respond_reply_nonempty (sources : String → Option String)
    (message language : String) (sessionId : Option String)
    (history : List HistoryEntry) (personId : Option String) (now : Nat)
    (insert : Turn → Except String Unit) :
    (handleChatModel sources message language sessionId history personId now
        insert).1.reply ≠ "" := by
  unfold handleChatModel
  dsimp only
  split <;> exact chatReply_ne_empty sources message language history

/-! ### C7 — idempotence of the Enhancer -/

theorem dropWhile_rdrop_cons (p : Char → Bool) (y : Char) (ys : List Char)
    (hp : p y = false) :
    (rdrop p (y :: ys)).dropWhile p = rdrop p (y :: ys) := by
  unfold rdrop
  rw [List.reverse_cons, List.dropWhile_append]
  split
  · simp [List.dropWhile_cons, hp]
  · rw [List.reverse_append]
    simp [List.dropWhile_cons, hp]

theorem jsTrim_dropWhile (s : String) :
    (jsTrim s).data.dropWhile jsWs = (jsTrim s).data := by
  show (rdrop jsWs (s.data.dropWhile jsWs)).dropWhile jsWs =
    rdrop jsWs (s.data.dropWhile jsWs)
  cases hd : s.data.dropWhile jsWs with
  | nil => rfl
  | cons y ys =>
    exact dropWhile_rdrop_cons _ y ys (dropWhile_head_not _ _ y ys hd)

theorem jsTrim_idem (s : String) : jsTrim (jsTrim s) = jsTrim s := by
  have h1 := jsTrim_dropWhile s
  show String.mk (rdrop jsWs ((jsTrim s).data.dropWhile jsWs)) = jsTrim s
  rw [h1]
  show String.mk (rdrop jsWs (rdrop jsWs (s.data.dropWhile jsWs))) = jsTrim s
  rw [rdrop_rdrop]
  rfl

theorem stripTrailWs_jsTrim (s : String) : stripTrailWs (jsTrim s) = jsTrim s := by
  show String.mk (rdrop jsWs (jsTrim s).data) = jsTrim s
  show String.mk (rdrop jsWs (rdrop jsWs (s.data.dropWhile jsWs))) = jsTrim s
  rw [rdrop_rdrop]
  rfl

theorem stripLead_of_not_artifact (s : String)
    (h : headIsArtifact s = false) : stripLeadArtifact s = s := by
  unfold stripLeadArtifact
  split
  case h_1 c rest heq =>
    unfold headIsArtifact at h
    rw [heq] at h
    simp only [Bool.or_eq_false_iff, beq_eq_false_iff_ne, ne_eq] at h
    rw [if_neg]
    rintro (rfl | rfl)
    · exact h.1 rfl
    · exact h.2 rfl
  case h_2 => rfl

/-- C7 counterexample: the Enhancer is not idempotent on accepted input.
`": ab"` is accepted with result `"ab"` (the artifact cleanup shortens
it), but a second application rejects `"ab"` outright. -/
theorem enhance_not_idempotent :
    enhanceAIResponse ": ab" "" "" [] = some "ab" ∧
      enhanceAIResponse "ab" "" "" [] = none := by decide

/-- C7 amended: the Enhancer is idempotent on accepted input whose
trimmed form does not begin with a stray colon or dash (so that the
cleanup step has nothing to strip): if such an `x` is accepted with
result `y`, then `enhance y = some y`. When the trimmed input does start
with an artifact, a second application may strip further or reject. -/
theorem enhance_idempotent_on_clean (rawResponse userMessage language : String)
    (history : List HistoryEntry) (u2 l2 : String) (h2 : List HistoryEntry)
    (y : String) (hart : headIsArtifact (jsTrim rawResponse) = false)
    (hy : enhanceAIResponse rawResponse userMessage language history = some y) :
    enhanceAIResponse y u2 l2 h2 = some y := by
  unfold enhanceAIResponse at hy
  by_cases c1 : (jsTrim rawResponse).length < 3
  · rw [if_pos c1] at hy; cases hy
  · rw [if_neg c1] at hy
    by_cases c2 : tokenCount (jsTrim rawResponse) = 1 ∧ (jsTrim rawResponse).length < 5
    · rw [if_pos c2] at hy; cases hy
    · rw [if_neg c2] at hy
      by_cases c3 : (jsIncludes (jsToLower (jsTrim rawResponse)) "tell me more" = true ∨
          jsIncludes (jsToLower (jsTrim rawResponse)) "tell me about" = true) ∧
          (jsTrim rawResponse).length < 40
      · rw [if_pos c3] at hy; cases hy
      · rw [if_neg c3] at hy
        rw [stripLead_of_not_artifact _ hart, stripTrailWs_jsTrim] at hy
        have hyy : y = jsTrim rawResponse := (Option.some.inj hy).symm
        subst hyy
        unfold enhanceAIResponse
        rw [jsTrim_idem]
        rw [if_neg c1, if_neg c2, if_neg c3]
        rw [stripLead_of_not_artifact _ hart, stripTrailWs_jsTrim]

/-- Witness for C7 at a concrete clean accepted input. -/
theorem enhance_idempotent_on_clean_witness :
    headIsArtifact (jsTrim "hello there") = false ∧
      enhanceAIResponse "hello there" "" "" [] = some "hello there" :=
  ⟨by decide,
    enhance_idempotent_on_clean "hello there" "" "" [] "" "" [] "hello there"
      (by decide) (by decide)⟩

/-! ### C5 — sequencing of the source chain -/

theorem tryLoop_fst (sources : String → Option String)
    (message language : String) (history : List HistoryEntry) :
    ∀ l : List String, (tryLoop sources message language history l).1 =
      l.findSome? (fun mo => attemptModel (sources mo) message language history) := by
  intro l
  induction l with
  | nil => rfl
  | cons m rest ih =>
    rw [List.findSome?_cons]
    unfold tryLoop
    cases attemptModel (sources m) message language history <;> simp [ih]

theorem tryLoop_trace_take (sources : String → Option String)
    (message language : String) (history : List HistoryEntry) :
    ∀ l : List String, ∃ k,
      (tryLoop sources message language history l).2 = l.take k := by
  intro l
  induction l with
  | nil => exact ⟨0, rfl⟩
  | cons m rest ih =>
    unfold tryLoop
    cases attemptModel (sources m) message language history with
    | some e => exact ⟨1, rfl⟩
    | none =>
      rcases ih with ⟨k, hk⟩
      exact ⟨k + 1, by simp [hk]⟩

/-- C5 counterexample: a source that has already failed is attempted a
second time within the same call — when every model fails, the trace is
the four-model priority list followed by a second `gpt2` attempt. -/
theorem gpt2_attempted_twice :
    (runChat (fun _ => none) "hello" "en-US" []).2 =
      ["microsoft/DialoGPT-medium", "microsoft/DialoGPT-large",
       "facebook/blenderbot-400M-distill", "gpt2", "gpt2"] ∧
      (runChat (fun _ => none) "hello" "en-US" []).2.count "gpt2" = 2 := by decide

/-- C5 amended: within one call the sources are attempted strictly
sequentially in the fixed priority list and the first result accepted by
the Enhancer wins and stops the chain; no source other than the last
one (`gpt2`) is ever attempted twice, but `gpt2` is attempted a second
time, with a plain text-generation payload, when the whole loop yields
no usable reply. -/
theorem source_chain_sequencing (sources : String → Option String)
    (message language : String) (history : List HistoryEntry)
    (m : String) (hm : m ≠ "gpt2") :
    SourceChainOk sources message language history m := by
  have htake := tryLoop_trace_take sources message language history modelOptions
  rcases htake with ⟨k, hk⟩
  have htr : (runChat sources message language history).2 = modelOptions.take k ∨
      (runChat sources message language history).2 =
        modelOptions.take k ++ ["gpt2"] := by
    unfold runChat
    by_cases hf :
        needsFallback (tryLoop sources message language history modelOptions).1 = true
    · right; simp [hf, hk]
    · left; simp [hf, hk]
  have hnodup : ∀ a : String, (modelOptions.take k).count a ≤ 1 := by
    intro a
    calc (modelOptions.take k).count a
        ≤ modelOptions.count a := (List.take_sublist k modelOptions).count_le a
      _ ≤ 1 := List.nodup_iff_count_le_one.mp (by decide) a
  refine ⟨tryLoop_fst sources message language history modelOptions, ⟨k, htr⟩, ?_, ?_⟩
  · rcases htr with h | h <;> rw [h]
    · exact hnodup m
    · rw [List.count_append]
      have h0 : List.count m ["gpt2"] = 0 := by
        simp [List.count_cons, hm]
      rw [h0]
      simpa using hnodup m
  · rcases htr with h | h <;> rw [h]
    · exact le_trans (hnodup "gpt2") (by omega)
    · rw [List.count_append]
      have h2 : List.count "gpt2" ["gpt2"] = 1 := by decide
      have := hnodup "gpt2"
      omega
/-- Witness for C5 at a concrete all-failing source map. -/
theorem source_chain_sequencing_witness :
    SourceChainOk (fun _ => none) "hi" "en-US" [] "microsoft/DialoGPT-medium" :=
  source_chain_sequencing (fun _ => none) "hi" "en-US" []
    "microsoft/DialoGPT-medium" (by decide)

/-! ### C4 — topic priority of the fallback question synthesizer -/

theorem filter_head_eq_foldr (cond : Topic → Bool) (q : Topic → String)
    (d : String) :
    ∀ l : List Topic,
      (match l.filter cond with
       | t :: _ => q t
       | [] => d) = l.foldr (fun t acc => if cond t then q t else acc) d := by
  intro l
  induction l with
  | nil => rfl
  | cons t rest ih =>
    by_cases h : cond t = true
    · simp [List.filter_cons, h]
    · simp [List.filter_cons, h, ih]

/-- C4 counterexample: with history `we got married` and message `ok`,
the union of topic tags of message and history window is non-empty
(Marriage), yet the synthesizer returns an entry of the generic pool —
the marriage keywords are never matched against the history window. -/
theorem fallback_topic_union_counterexample :
    specTopicUnion (jsToLower "ok")
        (rev2RecentTopics [⟨"we got married", "nice"⟩]) ≠ [] ∧
      generateContextualQuestion "ok" "en-US" [⟨"we got married", "nice"⟩] 0 =
        "That\x27s really interesting! Tell me more about that." ∧
      generateContextualQuestion "ok" "en-US" [⟨"we got married", "nice"⟩] 0 ≠
        topicQuestionEn Topic.marriage := by decide

/-- C4 amended: the fallback question synthesizer returns, after name and
greeting detection, the canned question of the first topic in the fixed
priority order (childhood, family, marriage, work, travel, education,
friendship) that matches — where the full keyword list of each topic is
tested against the lower-cased message, but only the primary
keyword (childhood/family/work/travel/school/friend; none for marriage)
is tested against the recent-history window; when no topic matches, an
entry of the generic pool selected by the injected random index is
returned. -/
theorem fallback_first_topic_priority (message : String)
    (history : List HistoryEntry) (rand : Nat) :
    generateContextualQuestion message "en-US" history rand =
      amendedSynthEn message history rand := by
  unfold generateContextualQuestion amendedSynthEn
  rw [if_neg (by decide : ¬ ("en-US" : String) = "ur-PK")]
  by_cases hn : rev2NameCondEn (jsToLower message) = true
  · simp [hn]
  · by_cases hg : (jsIncludes (jsToLower message) "hello" ||
        jsIncludes (jsToLower message) "hi" ||
        jsIncludes (jsToLower message) "hey") = true
    · simp [hn, hg]
    · simp only [hn, hg, if_false, Bool.false_eq_true]
      rw [filter_head_eq_foldr]
      simp [topicPriority, topicCondAmended, topicMsgKeywords, topicHistKeyword,
        topicQuestionEn, List.any, Bool.or_assoc, Bool.or_false, or_assoc]

/-! ### C6 — well-formedness of the assembled biography document -/

theorem jsJoin_ne_empty_head (sep x : String) (xs : List String) (hx : x ≠ "") :
    jsJoin sep (x :: xs) ≠ "" := by
  cases xs with
  | nil => simpa [jsJoin] using hx
  | cons y ys =>
    show x ++ sep ++ jsJoin sep (y :: ys) ≠ ""
    exact str_append_ne_empty_left _ _ (str_append_ne_empty_left _ _ hx)

theorem jsJoin_eq_empty_iff (sep : String) (l : List String)
    (h : ∀ x ∈ l, x ≠ "") : jsJoin sep l = "" ↔ l = [] := by
  constructor
  · intro hj
    cases l with
    | nil => rfl
    | cons x xs =>
      exact absurd hj (jsJoin_ne_empty_head sep x xs (h x (List.mem_cons_self x xs)))
  · rintro rfl
    rfl

theorem buildStories_empty_iff (entries : List BioEntry) :
    buildStoriesSection (extractStories entries) = "" ↔
      ∀ e ∈ entries, e.text.length ≤ 100 := by
  unfold buildStoriesSection
  rw [jsJoin_eq_empty_iff]
  · rw [List.map_eq_nil_iff, List.enum_eq_nil]
    unfold extractStories
    rw [List.take_eq_nil_iff]
    simp [List.map_eq_nil_iff, List.filter_eq_nil_iff, Nat.not_lt]
  · refine fun x hx => ?_
    rcases List.mem_map.mp hx with ⟨p, _, rfl⟩
    repeat apply str_append_ne_empty_left
    decide

/-- C6 counterexample: a non-empty input (one turn, whose text stays
under the story length threshold) yields a document whose `stories`
narrative section is the empty string — no templated sentence is
substituted there. -/
theorem stories_section_empty_on_nonempty_input :
    ([⟨"hi", "yo", 0⟩] : List Conversation) ≠ [] ∧
      (adminAssembledAnalysis [⟨"hi", "yo", 0⟩] []).book.stories = "" := by decide

/-- C6 amended: in the deterministically assembled document every
narrative section except `stories` is a non-empty string for every
input, a generic templated sentence standing in whenever an extraction
comes back empty; the `stories` section alone has no fallback and is the
empty string exactly when no merged entry exceeds 100 characters. -/
theorem analysis_sections_wellformed (conversations : List Conversation)
    (memories : List Memory) :
    (adminAssembledAnalysis conversations memories).book.introduction ≠ "" ∧
    (adminAssembledAnalysis conversations memories).book.earlyLife ≠ "" ∧
    (adminAssembledAnalysis conversations memories).book.personality ≠ "" ∧
    (adminAssembledAnalysis conversations memories).book.lifeJourney ≠ "" ∧
    (adminAssembledAnalysis conversations memories).book.relationships ≠ "" ∧
    (adminAssembledAnalysis conversations memories).book.values ≠ "" ∧
    (adminAssembledAnalysis conversations memories).book.themes ≠ "" ∧
    (adminAssembledAnalysis conversations memories).book.conclusion ≠ "" ∧
    ((adminAssembledAnalysis conversations memories).book.stories = "" ↔
      ∀ e ∈ mergedEntries conversations memories, e.text.length ≤ 100) := by
  unfold adminAssembledAnalysis generateComprehensiveAnalysis
  dsimp only
  refine ⟨?_, ?_, ?_, ?_, ?_, ?_, ?_, ?_, ?_⟩
  · unfold buildIntroduction
    repeat apply str_append_ne_empty_left
    decide
  · unfold buildEarlyLifeSection
    dsimp only
    split
    · repeat apply str_append_ne_empty_left
      decide
    · decide
  · unfold buildPersonalitySection
    repeat apply str_append_ne_empty_left
    decide
  · unfold buildLifeJourneySection
    repeat apply str_append_ne_empty_left
    decide
  · unfold buildRelationshipsSection
    repeat apply str_append_ne_empty_left
    decide
  · unfold buildValuesSection
    repeat apply str_append_ne_empty_left
    decide
  · split
    · decide
    · assumption
  · unfold buildConclusion
    repeat apply str_append_ne_empty_left
    decide
  · exact buildStories_empty_iff (mergedEntries conversations memories)

